import Mathlib

/-!
Verification development for the wheel-n-deal price-monitoring engine.

Shallow embedding of the core of the repository:
* `backend/utils/pricing.py` — `parse_price`, `format_price`;
* `backend/services/scraper.py` — adapter selection, JSON-LD / OpenGraph /
  DOM extraction candidates, the eight retailer adapters, the generic
  adapter, and `scrape_product_info`;
* `backend/tasks/price_check.py` — the self-rescheduling `check_price` cycle;
* `backend/routers/tracker.py` — the threshold derivation in `track_product`.

Python floats are modelled as exact rationals (`ℚ`): every price that the
code manipulates is produced by parsing a decimal string or by rounding to
two decimal places, so the exact-decimal semantics coincides with the
float semantics on all values the program produces.  Rounding (`round(x, 2)`
and `%.2f` formatting) is round-half-to-even, as in Python.
-/

namespace WheelNDeal

/-! ### Digit strings -/

/-- The character for a single decimal digit. -/
def digitChar (d : Nat) : Char := Char.ofNat (48 + d)

/-- Numeric value of a digit character. -/
def digitVal (c : Char) : Nat := c.toNat - 48

/-- Fuel-driven digit rendering; `fuel` bounds the number of digits. -/
def natDigitsAux : Nat → Nat → List Char
  | 0, _ => []
  | fuel + 1, n =>
    if n < 10 then [digitChar n]
    else natDigitsAux fuel (n / 10) ++ [digitChar (n % 10)]

/-- Decimal digit characters of `n`, most significant first. -/
def natDigits (n : Nat) : List Char := natDigitsAux (n + 1) n

/-- Read a digit-character list back as a natural number. -/
def digitsToNat (cs : List Char) : Nat :=
  cs.foldl (fun a c => a * 10 + digitVal c) 0

/-- Decimal rendering of a natural number. -/
def natStr (n : Nat) : String := String.mk (natDigits n)

/-- Two-digit zero-padded rendering (for the cents part of a price). -/
def natStr2 (k : Nat) : String := String.mk [digitChar (k / 10), digitChar (k % 10)]

/-! ### Rounding (Python semantics: nearest, ties to even) -/

/-- Round a rational to the nearest integer, ties to even — the rounding
used by Python's `round` builtin and `%.2f` formatting. -/
def rne (x : ℚ) : ℤ :=
  if x - ⌊x⌋ < 1/2 then ⌊x⌋
  else if 1/2 < x - ⌊x⌋ then ⌊x⌋ + 1
  else if Even ⌊x⌋ then ⌊x⌋ else ⌊x⌋ + 1

/-- Model of Python `round(x, 2)`. -/
def pyRound2 (x : ℚ) : ℚ := (rne (x * 100) : ℚ) / 100

/-! ### `backend/utils/pricing.py` -/

/-- `price_str.replace(",", "")` — strip thousands separators. -/
def stripCommas (s : String) : String := String.mk (s.data.filter (fun c => c != ','))

/-- Maximal leading run of digit characters, with the remainder. -/
def takeDigits : List Char → (List Char × List Char)
  | [] => ([], [])
  | c :: cs =>
    if c.isDigit then
      let p := takeDigits cs
      (c :: p.1, p.2)
    else ([], c :: cs)

/-- Leftmost match of the regex `\d+\.?\d*`, returned as the pair
(integer digits, fractional digits).  `re.search` scans for the first
digit, takes the maximal digit run, an optional dot, then a maximal
digit run. -/
def scanToken : List Char → Option (List Char × List Char)
  | [] => none
  | c :: cs =>
    if c.isDigit then
      let p := takeDigits (c :: cs)
      match p.2 with
      | '.' :: rest => some (p.1, (takeDigits rest).1)
      | _ => some (p.1, [])
    else scanToken cs

/-- Value of a matched numeric token, as `float(match.group())` computes it. -/
def tokenVal (ds fs : List Char) : ℚ :=
  (digitsToNat ds : ℚ) + (digitsToNat fs : ℚ) / (10 : ℚ) ^ fs.length

/-- `parse_price` from `backend/utils/pricing.py`: `None` for the empty
string and the `"Price not found"` sentinel, otherwise the first numeric
token of the comma-stripped string as a float, or `None` when there is
no numeric token. -/
def parse_price (price_str : String) : Option ℚ :=
  if price_str = "" ∨ price_str = "Price not found" then none
  else
    match scanToken (stripCommas price_str).data with
    | some p => some (tokenVal p.1 p.2)
    | none => none

/-- `format_price` from `backend/utils/pricing.py`: `None` renders as the
sentinel, a float as `f"${price:.2f}"` (two decimals, round-half-even). -/
def format_price : Option ℚ → String
  | none => "Price not found"
  | some q =>
    "$" ++ (if rne (q * 100) < 0 then "-" else "")
      ++ natStr ((rne (q * 100)).natAbs / 100) ++ "."
      ++ natStr2 ((rne (q * 100)).natAbs % 100)

/-- `parse_price` as applied inside `scrape_product_info`, where the raw
adapter price may be Python `None` (which falls through the
`if not price_str` guard to `None`). -/
def parse_price_opt : Option String → Option ℚ
  | none => none
  | some s => parse_price s

/-! ### Strings: lowering and substring containment -/

/-- `s.lower()` (ASCII). -/
def strLower (s : String) : String := String.mk (s.data.map Char.toLower)

/-- Contiguous sublist containment test. -/
def containsSubList (hay needle : List Char) : Bool :=
  needle.isPrefixOf hay ||
    match hay with
    | [] => false
    | _ :: t => containsSubList t needle

/-- Python `sub in hay` on strings: contiguous substring containment. -/
def strContainsSub (hay sub : String) : Bool := containsSubList hay.data sub.data

/-! ### `urlparse(url).netloc` (from `urllib.parse`) -/

/-- Characters allowed in a URL scheme after the leading letter. -/
def isSchemeChar (c : Char) : Bool := c.isAlphanum || c = '+' || c = '-' || c = '.'

/-- Drop a leading `scheme:` when the text before the first colon is a
valid scheme (a letter followed by letters, digits, `+`, `-`, `.`). -/
def stripScheme (cs : List Char) : List Char :=
  let p := cs.span (fun c => c ≠ ':')
  match p.2 with
  | ':' :: rest =>
    match p.1 with
    | [] => cs
    | c :: cs' => if c.isAlpha && cs'.all isSchemeChar then rest else cs
  | _ => cs

/-- Model of `urlparse(url).netloc`: after stripping the scheme, the
netloc is the run following a leading `//`, up to the next `/`, `?` or
`#`; without a leading `//` the netloc is empty. -/
def urlNetloc (url : String) : String :=
  match stripScheme url.data with
  | '/' :: '/' :: r => String.mk (r.takeWhile (fun c => c ≠ '/' && c ≠ '?' && c ≠ '#'))
  | _ => ""

/-! ### Site adapter registry (`backend/services/scraper.py` 104–124) -/

/-- `DOMAIN_TO_WEBSITE_TYPE` — the fixed keyword table, in the source's
(insertion) order. -/
def DOMAIN_TO_WEBSITE_TYPE : List (String × String) :=
  [("amazon", "amazon"), ("walmart", "walmart"), ("bestbuy", "bestbuy"),
   ("target", "target"), ("ebay", "ebay"), ("sephora", "sephora"),
   ("dedcool", "dedcool"), ("costco", "costco")]

/-- `get_website_type`: lowercase the URL's netloc and return the adapter
kind of the first table keyword contained in it, else `"generic"`. -/
def get_website_type (url : String) : String :=
  let domain := strLower (urlNetloc url)
  match DOMAIN_TO_WEBSITE_TYPE.find? (fun kv => strContainsSub domain kv.1) with
  | some kv => kv.2
  | none => "generic"

/-! ### Python value rendering -/

/-- `k`-digit zero-padded decimal rendering of `v`. -/
def padDigits : Nat → Nat → List Char
  | 0, _ => []
  | k + 1, v => padDigits k (v / 10) ++ [digitChar (v % 10)]

/-- Decimal rendering of an integer. -/
def intStr (n : ℤ) : String := (if n < 0 then "-" else "") ++ natStr n.natAbs

/-- Model of Python `str(x)` for a float `x`, for the floats this program
produces: every such float is a rational exactly representable with at
most 17 decimal places (parsed prices and 2-decimal roundings), and
Python's shortest-round-trip repr prints exactly those decimals, with at
least one fractional digit (`str(90.0) == "90.0"`).  Other rationals
(unreachable from the program) are rendered as `num/den`. -/
def pyFloatRepr (q : ℚ) : String :=
  let sgn := if q.num < 0 then "-" else ""
  let n := q.num.natAbs
  let d := q.den
  match (List.range 18).find? (fun k => 1 ≤ k && 10 ^ k % d = 0) with
  | some k =>
    let m := n * (10 ^ k / d)
    sgn ++ natStr (m / 10 ^ k) ++ "." ++ String.mk (padDigits k (m % 10 ^ k))
  | none => sgn ++ natStr n ++ "/" ++ natStr d

/-! ### JSON values (output of `json.loads` on `ld+json` script bodies) -/

/-- JSON values.  `json.loads` yields `int` for integer literals and
`num` (a Python float) otherwise. -/
inductive Json where
  | null
  | bool (b : Bool)
  | int (n : ℤ)
  | num (q : ℚ)
  | str (s : String)
  | arr (xs : List Json)
  | obj (kvs : List (String × Json))

/-- Dictionary lookup, `d.get(k)`; JSON object keys are unique. -/
def jsonGetKvs (kvs : List (String × Json)) (k : String) : Option Json :=
  (kvs.find? (fun kv => kv.1 == k)).map (fun kv => kv.2)

/-- `d.get(k)` on a JSON value. -/
def jsonGet (j : Json) (k : String) : Option Json :=
  match j with
  | .obj kvs => jsonGetKvs kvs k
  | _ => none

/-- Python truthiness of a JSON value. -/
def jsonTruthy : Json → Bool
  | .null => false
  | .bool b => b
  | .int n => n ≠ 0
  | .num q => q ≠ 0
  | .str s => s ≠ ""
  | .arr xs => !xs.isEmpty
  | .obj kvs => !kvs.isEmpty

/-- Truthiness of `d.get(k)` (missing key → `None` → falsy). -/
def optJsonTruthy : Option Json → Bool
  | none => false
  | some j => jsonTruthy j

mutual

/-- Model of Python `str(x)` on a JSON value (f-string interpolation). -/
def pyStrJson : Json → String
  | .str s => s
  | j => pyReprJson j

/-- Model of Python `repr(x)` on a JSON value (used for values nested in
containers; string escaping is not modelled, no program string needs it). -/
def pyReprJson : Json → String
  | .null => "None"
  | .bool b => if b then "True" else "False"
  | .int n => intStr n
  | .num q => pyFloatRepr q
  | .str s => "'" ++ s ++ "'"
  | .arr xs => "[" ++ String.intercalate ", " (pyReprList xs) ++ "]"
  | .obj kvs => "\x7b" ++ String.intercalate ", " (pyReprObj kvs) ++ "\x7d"

def pyReprList : List Json → List String
  | [] => []
  | x :: xs => pyReprJson x :: pyReprList xs

def pyReprObj : List (String × Json) → List String
  | [] => []
  | kv :: kvs => ("'" ++ kv.1 ++ "': " ++ pyReprJson kv.2) :: pyReprObj kvs

end

/-! ### JSON-LD product extraction (`backend/services/scraper.py` 22–101) -/

/-- Does a `@type` value name a `Product` (string, or list containing it)? -/
def isProductType : Option Json → Bool
  | some (.str t) => t == "Product"
  | some (.arr xs) => xs.any (fun j => match j with | .str s => s == "Product" | _ => false)
  | _ => false

mutual

/-- `_find_product_in_json_ld`: recursively find a `Product` object —
a dict whose `@type` is (or contains) `"Product"`, possibly nested under
`@graph` or inside a list.  A found product dict always contains `@type`
and is therefore truthy, so the loop's `if result:` is `isSome`. -/
def findProductInJsonLd : Json → Option Json
  | .obj kvs =>
    if isProductType (jsonGetKvs kvs "@type") then some (.obj kvs)
    else findProductInGraph kvs
  | .arr xs => findProductInList xs
  | _ => none

/-- The `"@graph" in data` branch: recurse into the `@graph` value. -/
def findProductInGraph : List (String × Json) → Option Json
  | [] => none
  | kv :: kvs =>
    if kv.1 == "@graph" then findProductInJsonLd kv.2
    else findProductInGraph kvs

/-- The list branch: first item whose recursive search succeeds. -/
def findProductInList : List Json → Option Json
  | [] => none
  | x :: xs =>
    match findProductInJsonLd x with
    | some r => some r
    | none => findProductInList xs

end

/-- `_extract_price_from_offers`: unwrap a list to its first element
(empty list → `{}`), then try `price` and `lowPrice` keys of a dict. -/
def extractPriceFromOffers (offers0 : Json) : Option String :=
  let offers := match offers0 with
    | .arr [] => Json.obj []
    | .arr (x :: _) => x
    | o => o
  match offers with
  | .obj kvs =>
    let price := jsonGetKvs kvs "price"
    if optJsonTruthy price then price.map (fun p => "$" ++ pyStrJson p)
    else
      let low := jsonGetKvs kvs "lowPrice"
      if optJsonTruthy low then low.map (fun p => "$" ++ pyStrJson p)
      else none
  | _ => none

/-- `extract_price_from_json_ld`: scan the page's `ld+json` scripts
(`none` models a body that fails `json.loads`, skipped by the
`except` clause); return the first price found in a `Product` object. -/
def extract_price_from_json_ld : List (Option Json) → Option String
  | [] => none
  | none :: rest => extract_price_from_json_ld rest
  | some j :: rest =>
    match findProductInJsonLd j with
    | some p =>
      match extractPriceFromOffers ((jsonGet p "offers").getD (.obj [])) with
      | some price => some price
      | none => extract_price_from_json_ld rest
    | none => extract_price_from_json_ld rest

/-- `extract_title_from_json_ld`: the `name` of the first `Product`
object with a truthy `name`. -/
def extract_title_from_json_ld : List (Option Json) → Option String
  | [] => none
  | none :: rest => extract_title_from_json_ld rest
  | some j :: rest =>
    match findProductInJsonLd j with
    | some p =>
      if optJsonTruthy (jsonGet p "name") then (jsonGet p "name").map pyStrJson
      else extract_title_from_json_ld rest
    | none => extract_title_from_json_ld rest

/-! ### Rendered-page model

A parsed page (BeautifulSoup) is a list of elements in document order.
Multi-valued `class` attributes are flattened to one `("class", c)` entry
per class, matching BeautifulSoup's per-class matching.  `textStripped`
is `get_text(strip=True)`, `textRaw` is `get_text()`.  The `ld+json`
script bodies are carried already parsed (`none` = `json.loads` fails).
The Selenium driver is a partial map from CSS selector to the first
matching element (`none` = `NoSuchElementException`). -/

structure Element where
  tag : String
  attrs : List (String × String)
  textStripped : String
  textRaw : String

structure Soup where
  els : List Element
  ldScripts : List (Option Json)

structure DriverElem where
  text : String
  attrs : List (String × String)

structure Driver where
  css : String → Option DriverElem

/-- `element.get_attribute(name)` (`None` when absent). -/
def driverGet (e : DriverElem) (name : String) : Option String :=
  (e.attrs.find? (fun a => a.1 == name)).map (fun a => a.2)

/-- `soup.find(tag, {attr: val})`. -/
def findTagAttrVal (els : List Element) (tag attr val : String) : Option Element :=
  els.find? (fun e => e.tag == tag && e.attrs.any (fun a => a.1 == attr && a.2 == val))

/-- `soup.find(tag)`. -/
def findTagOnly (els : List Element) (tag : String) : Option Element :=
  els.find? (fun e => e.tag == tag)

/-- `soup.find(tag, {attr: True})`. -/
def findTagWithAttr (els : List Element) (tag attr : String) : Option Element :=
  els.find? (fun e => e.tag == tag && e.attrs.any (fun a => a.1 == attr))

/-- `soup.find(attrs={attr: val})` (any tag). -/
def findAttrVal (els : List Element) (attr val : String) : Option Element :=
  els.find? (fun e => e.attrs.any (fun a => a.1 == attr && a.2 == val))

/-- `soup.find(attrs={attr: True})` (any tag). -/
def findWithAttr (els : List Element) (attr : String) : Option Element :=
  els.find? (fun e => e.attrs.any (fun a => a.1 == attr))

/-- `soup.find(tag, class_=p)` with a predicate on the class string. -/
def findTagClassPred (els : List Element) (tag : String) (p : String → Bool) : Option Element :=
  els.find? (fun e => e.tag == tag && e.attrs.any (fun a => a.1 == "class" && p a.2))

/-- `soup.find_all(tag)`. -/
def findAllTag (els : List Element) (tag : String) : List Element :=
  els.filter (fun e => e.tag == tag)

/-- `elem.get(attr)`. -/
def elemGet (e : Element) (attr : String) : Option String :=
  (e.attrs.find? (fun a => a.1 == attr)).map (fun a => a.2)

/-- `soup.select("[class*='s']")`. -/
def selectClassContains (els : List Element) (sub : String) : List Element :=
  els.filter (fun e => e.attrs.any (fun a => a.1 == "class" && strContainsSub a.2 sub))

/-- `soup.select("[id*='s']")`. -/
def selectIdContains (els : List Element) (sub : String) : List Element :=
  els.filter (fun e => e.attrs.any (fun a => a.1 == "id" && strContainsSub a.2 sub))

/-- `soup.select("[attr]")`. -/
def selectWithAttr (els : List Element) (attr : String) : List Element :=
  els.filter (fun e => e.attrs.any (fun a => a.1 == attr))

/-- Python falsiness of an optional string (`not x` for `None` or `""`). -/
def optStrFalsy : Option String → Bool
  | none => true
  | some s => s == ""

/-- The `if not x: x = cand` chaining pattern: keep `x` when truthy. -/
def pyOr (x cand : Option String) : Option String :=
  if optStrFalsy x then cand else x

/-- `extract_og_title`: content of the `og:title` meta tag, when truthy. -/
def extract_og_title (els : List Element) : Option String :=
  match findTagAttrVal els "meta" "property" "og:title" with
  | some e =>
    match elemGet e "content" with
    | some c => if c == "" then none else some c
    | none => none
  | none => none

/-- `extract_og_price`: `"$" + content` of the `og:price:amount` meta tag. -/
def extract_og_price (els : List Element) : Option String :=
  match findTagAttrVal els "meta" "property" "og:price:amount" with
  | some e =>
    match elemGet e "content" with
    | some c => if c == "" then none else some ("$" ++ c)
    | none => none
  | none => none

/-! ### The eight retailer adapters and the generic adapter
(`backend/services/scraper.py` 127–462).  Each returns the raw
`{title, price}` pair; `price` is an optional string because Selenium's
`get_attribute` can yield Python `None`. -/

structure RawInfo where
  title : String
  price : Option String

/-- `scrape_amazon`: title from `span#productTitle`; price from the four
span selectors in order (first *element* found wins), then the
`.a-price .a-offscreen` driver fallback, then the sentinel.  JSON-LD is
never consulted. -/
def scrape_amazon (driver : Driver) (soup : Soup) : RawInfo :=
  let title := match findTagAttrVal soup.els "span" "id" "productTitle" with
    | some e => e.textStripped
    | none => "Unknown Product"
  let fromSelectors : Option String :=
    match findTagAttrVal soup.els "span" "id" "priceblock_ourprice" with
    | some e => some e.textStripped
    | none =>
      match findTagAttrVal soup.els "span" "id" "priceblock_dealprice" with
      | some e => some e.textStripped
      | none =>
        match findTagAttrVal soup.els "span" "class" "a-offscreen" with
        | some e => some e.textStripped
        | none =>
          match findTagAttrVal soup.els "span" "class" "a-price-whole" with
          | some e => some e.textStripped
          | none => none
  let p1 :=
    if optStrFalsy fromSelectors then
      match driver.css ".a-price .a-offscreen" with
      | some el => driverGet el "innerText"
      | none => fromSelectors
    else fromSelectors
  let price := if optStrFalsy p1 then some "Price not found" else p1
  ⟨title, price⟩

/-- `scrape_walmart`: driver-only price candidates; no falsy guard, so a
found element with a missing `content` attribute yields `None`. -/
def scrape_walmart (driver : Driver) (soup : Soup) : RawInfo :=
  let title := match findTagAttrVal soup.els "h1" "itemprop" "name" with
    | some e => e.textStripped
    | none =>
      match findTagAttrVal soup.els "h1" "class" "prod-ProductTitle" with
      | some e => e.textStripped
      | none => "Unknown Product"
  let price : Option String :=
    match driver.css "[data-testid='price-wrap'] span[itemprop='price']" with
    | some el => driverGet el "content"
    | none =>
      match driver.css ".price-characteristic" with
      | some el => driverGet el "content"
      | none => some "Price not found"
  ⟨title, price⟩

/-- `scrape_bestbuy`. -/
def scrape_bestbuy (driver : Driver) (soup : Soup) : RawInfo :=
  let title := match findTagAttrVal soup.els "h1" "class" "heading-5" with
    | some e => e.textStripped
    | none => "Unknown Product"
  let price : Option String :=
    match driver.css ".priceView-customer-price span" with
    | some el => some el.text
    | none => some "Price not found"
  ⟨title, price⟩

/-- `scrape_target`. -/
def scrape_target (driver : Driver) (soup : Soup) : RawInfo :=
  let title := match findTagAttrVal soup.els "h1" "data-test" "product-title" with
    | some e => e.textStripped
    | none => "Unknown Product"
  let price : Option String :=
    match driver.css "[data-test='product-price']" with
    | some el => some el.text
    | none => some "Price not found"
  ⟨title, price⟩

/-- `scrape_ebay`. -/
def scrape_ebay (driver : Driver) (soup : Soup) : RawInfo :=
  let title := match findTagAttrVal soup.els "h1" "id" "itemTitle" with
    | some e => ((e.textStripped).replace "Details about" "").trim
    | none => "Unknown Product"
  let price : Option String :=
    match driver.css "#prcIsum" with
    | some el => driverGet el "content"
    | none =>
      match driver.css "#mm-saleDscPrc" with
      | some el => some el.text
      | none => some "Price not found"
  ⟨title, price⟩

/-- `scrape_sephora`: site-specific DOM first, then JSON-LD, then a
driver fallback, then the sentinel. -/
def scrape_sephora (driver : Driver) (soup : Soup) : RawInfo :=
  let t1 := (findTagAttrVal soup.els "span" "data-at" "product_name").map
    (fun e => e.textStripped)
  let t2 := pyOr t1 ((findTagClassPred soup.els "h1"
    (fun c => strContainsSub c "ProductName")).map (fun e => e.textStripped))
  let t3 := pyOr t2 ((extract_og_title soup.els).map
    (fun s => (((s.splitOn "|").headD "").trim)))
  let title := match pyOr t3 (some "Unknown Product") with
    | some s => s
    | none => "Unknown Product"
  let p1 := (findTagAttrVal soup.els "span" "data-at" "price").map
    (fun e => e.textStripped)
  let p2 := pyOr p1 (extract_price_from_json_ld soup.ldScripts)
  let p3 := pyOr p2 (match driver.css "[data-comp='Price'] b, [data-at='price']" with
    | some el => some el.text
    | none => p2)
  let price := pyOr p3 (some "Price not found")
  ⟨title, price⟩

/-- `scrape_dedcool`: JSON-LD is the first price candidate; a class-based
span counts only when its text contains a dollar sign. -/
def scrape_dedcool (driver : Driver) (soup : Soup) : RawInfo :=
  let t1 := extract_og_title soup.els
  let t2 := pyOr t1 ((findTagClassPred soup.els "h1"
    (fun c => strContainsSub (strLower c) "product")).map (fun e => e.textStripped))
  let t3 := pyOr t2 ((findTagOnly soup.els "h1").map (fun e => e.textStripped))
  let title := match pyOr t3 (some "Unknown Product") with
    | some s => s
    | none => "Unknown Product"
  let p1 := extract_price_from_json_ld soup.ldScripts
  let p2 := pyOr p1 (match findTagClassPred soup.els "span"
      (fun c => strContainsSub (strLower c) "price") with
    | some e => if strContainsSub e.textStripped "$" then some e.textStripped else p1
    | none => p1)
  let p3 := pyOr p2 (extract_og_price soup.els)
  let price := pyOr p3 (some "Price not found")
  ⟨title, price⟩

/-- `scrape_costco`: JSON-LD first, then a driver candidate, then a
class-based span (dollar-gated), then the sentinel. -/
def scrape_costco (driver : Driver) (soup : Soup) : RawInfo :=
  let t1 := (findTagAttrVal soup.els "h1" "automation-id" "productName").map
    (fun e => e.textStripped)
  let t2 := pyOr t1 ((findTagAttrVal soup.els "h1" "id" "product-title").map
    (fun e => e.textStripped))
  let t3 := pyOr t2 (extract_og_title soup.els)
  let title := match pyOr t3 (some "Unknown Product") with
    | some s => s
    | none => "Unknown Product"
  let p1 := extract_price_from_json_ld soup.ldScripts
  let p2 := pyOr p1 (match driver.css "[automation-id='productPrice']" with
    | some el => some el.text
    | none => p1)
  let p3 := pyOr p2 (match findTagClassPred soup.els "span"
      (fun c => strContainsSub (strLower c) "price") with
    | some e => if strContainsSub e.textStripped "$" then some e.textStripped else p2
    | none => p2)
  let price := pyOr p3 (some "Price not found")
  ⟨title, price⟩

/-! #### Generic adapter helpers -/

/-- Noise words excluded by the generic `h1` heading heuristic. -/
def skip_words : List String :=
  ["menu", "navigation", "cart", "search", "login", "sign", "list"]

/-- The generic title heuristic: first `h1` whose stripped text is
non-empty, longer than 5, and free of noise words. -/
def h1Heuristic (els : List Element) : Option String :=
  ((findAllTag els "h1").find? (fun e =>
    let t := e.textStripped
    t ≠ "" && t.length > 5 &&
      !(skip_words.any (fun w => strContainsSub (strLower t) w)))).map
    (fun e => e.textStripped)

/-- Fuel-driven matcher for `(?:,\d+)*`; each round consumes at least
two characters, so `cs.length` fuel is always enough. -/
def matchCommaGroupsAux : Nat → List Char → (List Char × List Char)
  | 0, cs => ([], cs)
  | fuel + 1, cs =>
    match cs with
    | ',' :: c :: rest =>
      if c.isDigit then
        let p := takeDigits (c :: rest)
        let q := matchCommaGroupsAux fuel p.2
        (',' :: p.1 ++ q.1, q.2)
      else ([], cs)
    | _ => ([], cs)

/-- Match `(?:,\d+)*` greedily, returning matched chars and remainder. -/
def matchCommaGroups (cs : List Char) : List Char × List Char :=
  matchCommaGroupsAux cs.length cs

/-- Match the body `\d+(?:,\d+)*(?:\.\d{2})?` at the current position. -/
def matchPriceBody (cs : List Char) : Option (List Char) :=
  let p := takeDigits cs
  if p.1.isEmpty then none
  else
    let q := matchCommaGroups p.2
    match q.2 with
    | '.' :: a :: b :: _ =>
      if a.isDigit && b.isDigit then some (p.1 ++ q.1 ++ ['.', a, b])
      else some (p.1 ++ q.1)
    | _ => some (p.1 ++ q.1)

/-- `re.search(r"\$(\d+(?:,\d+)*(?:\.\d{2})?)", text)`: the group of the
leftmost dollar-prefixed numeric substring. -/
def scanDollarPrice : List Char → Option (List Char)
  | [] => none
  | '$' :: rest =>
    (match matchPriceBody rest with
     | some g => some g
     | none => scanDollarPrice rest)
  | _ :: rest => scanDollarPrice rest

/-- The generic regex sweep over one selector's matches: first element
whose raw text contains a dollar-prefixed price. -/
def selectSearch (cands : List Element) : Option String :=
  cands.findSome? (fun e => (scanDollarPrice e.textRaw.data).map
    (fun g => "$" ++ String.mk g))

/-- `scrape_generic`: layered title and price candidates; price order is
JSON-LD, `itemprop=price`, OpenGraph, data attributes, regex sweep,
sentinel. -/
def scrape_generic (driver : Driver) (soup : Soup) : RawInfo :=
  let t1 := extract_og_title soup.els
  let t2 := pyOr t1 (extract_title_from_json_ld soup.ldScripts)
  let t3 := pyOr t2
    (match findTagWithAttr soup.els "h1" "itemprop" with
     | some e => some e.textStripped
     | none =>
       match findTagWithAttr soup.els "h1" "data-product" with
       | some e => some e.textStripped
       | none =>
         match findTagWithAttr soup.els "h1" "data-name" with
         | some e => some e.textStripped
         | none => none)
  let t4 := pyOr t3 (h1Heuristic soup.els)
  let title := match pyOr t4 (some "Unknown Product") with
    | some s => s
    | none => "Unknown Product"
  let p1 := extract_price_from_json_ld soup.ldScripts
  let p2 := pyOr p1
    (match findAttrVal soup.els "itemprop" "price" with
     | some e =>
       let pc := match elemGet e "content" with
         | some c => if c == "" then e.textStripped else c
         | none => e.textStripped
       if pc == "" then none
       else some (if strContainsSub pc "$" then pc else "$" ++ pc)
     | none => none)
  let p3 := pyOr p2 (extract_og_price soup.els)
  let p4 := pyOr p3
    (match findWithAttr soup.els "data-price" with
     | some e =>
       match elemGet e "data-price" with
       | some v => if v == "" then dataProductPrice soup.els else some ("$" ++ v)
       | none => dataProductPrice soup.els
     | none => dataProductPrice soup.els)
  let p5 := pyOr p4
    (match selectSearch (selectClassContains soup.els "price") with
     | some s => some s
     | none =>
       match selectSearch (selectIdContains soup.els "price") with
       | some s => some s
       | none => selectSearch (selectWithAttr soup.els "data-price"))
  let price := pyOr p5 (some "Price not found")
  ⟨title, price⟩
where
  /-- Second iteration of the data-attribute loop. -/
  dataProductPrice (els : List Element) : Option String :=
    match findWithAttr els "data-product-price" with
    | some e =>
      match elemGet e "data-product-price" with
      | some v => if v == "" then none else some ("$" ++ v)
      | none => none
    | none => none

/-! ### `scrape_product_info` (`backend/services/scraper.py` 465–561) -/

/-- One attempt at fetching and rendering the page: success yields a
parsed page and a driver; the two failure shapes are the two `except`
arms of `scrape_product_info`. -/
inductive FetchOutcome where
  | success (soup : Soup) (driver : Driver)
  | timeout
  | error (msg : String)

/-- The fixed-shape result of `scrape_product_info`. -/
structure ProductInfo where
  title : String
  price : String
  price_float : Option ℚ
  url : String

/-- `scraper_map.get(website_type, scrape_generic)` dispatch. -/
def scraperFor (website_type : String) : Driver → Soup → RawInfo :=
  if website_type = "amazon" then scrape_amazon
  else if website_type = "walmart" then scrape_walmart
  else if website_type = "bestbuy" then scrape_bestbuy
  else if website_type = "target" then scrape_target
  else if website_type = "ebay" then scrape_ebay
  else if website_type = "sephora" then scrape_sephora
  else if website_type = "dedcool" then scrape_dedcool
  else if website_type = "costco" then scrape_costco
  else scrape_generic

/-- `scrape_product_info`: select the adapter from the URL, run it on
the rendered page, then normalize — `price_float = parse_price(raw)` and
`price = format_price(price_float)`.  A page-load timeout or any other
scraping exception is caught and returns the corresponding sentinel
record with the URL preserved. -/
def scrape_product_info (url : String) (fetch : FetchOutcome) : ProductInfo :=
  match fetch with
  | .timeout => ⟨"Error: Page load timeout", "Price not found", none, url⟩
  | .error msg => ⟨"Error: " ++ msg, "Price not found", none, url⟩
  | .success soup driver =>
    let raw := scraperFor (get_website_type url) driver soup
    let pf := parse_price_opt raw.price
    ⟨raw.title, format_price pf, pf, url⟩

/-! ### Persistence model (`backend/models.py`, as used by the core) -/

/-- A tracked product row: `url` and the nullable `target_price`. -/
structure Product where
  id : Nat
  url : String
  target_price : Option ℚ

/-- A price-history row.  The price is nullable because `track_product`
stores the scraped `price_float`, which may be `None`. -/
structure PriceEntry where
  product_id : Nat
  price : Option ℚ

/-- Database state: tracked products and the append-only history. -/
structure DB where
  products : List Product
  history : List PriceEntry

/-! ### The recheck cycle (`backend/tasks/price_check.py`) -/

/-- The descriptor handed to `apply_async`: the task arguments and the
countdown (0 when no countdown is given). -/
structure Continuation where
  url : String
  target_price : Option ℚ
  countdown : ℤ

/-- One cycle's environment: the fetch outcome (`none` models the
scrape call itself raising, e.g. the driver failing to start — caught by
the outer `except`), whether a database call (`query`/`add`/`commit`)
raises, whether `send_signal_message` raises, and the value drawn by
`random.randint(-600, 600)`. -/
structure CycleEnv where
  scrape : Option FetchOutcome
  dbFail : Bool
  notifyFail : Bool
  r : ℤ

/-- The cycle's observable outcome: the database afterwards, the Signal
messages sent, and the continuations enqueued. -/
structure CycleResult where
  db : DB
  notifications : List String
  continuations : List Continuation

/-- The threshold comparison at `price_check.py:39`:
`current_price <= target_price`, inclusive. -/
def should_notify (observed_price target_price : ℚ) : Bool :=
  observed_price ≤ target_price

/-- `info["price"].replace("$", "").replace(",", "")`. -/
def stripDollarsCommas (s : String) : String :=
  String.mk (s.data.filter (fun c => c != '$' && c != ','))

/-- Model of the `float(str)` builtin on this program's inputs: optional
surrounding whitespace and sign, then digits with at most one dot and at
least one digit; anything else raises `ValueError` (`none`).  (`inf`,
`nan` and exponent forms never occur here.) -/
def pyFloatOfString (s : String) : Option ℚ :=
  match (s.data.dropWhile (fun c => c.isWhitespace)).reverse.dropWhile
      (fun c => c.isWhitespace) |>.reverse with
  | '-' :: rest => (pyFloatUnsigned rest).map (fun q => -q)
  | '+' :: rest => pyFloatUnsigned rest
  | rest => pyFloatUnsigned rest
where
  pyFloatUnsigned (cs : List Char) : Option ℚ :=
    let p := takeDigits cs
    match p.2 with
    | [] => if p.1.isEmpty then none else some (digitsToNat p.1 : ℚ)
    | '.' :: r2 =>
      let q := takeDigits r2
      if !q.2.isEmpty then none
      else if p.1.isEmpty && q.1.isEmpty then none
      else some ((digitsToNat p.1 : ℚ) + (digitsToNat q.1 : ℚ) / (10 : ℚ) ^ q.1.length)
    | _ => none

/-- The f-string at `price_check.py:40-44`. -/
def dropMessage (title price : String) (target_price : ℚ) (url : String) : String :=
  "Price drop alert! " ++ title ++ " is now " ++ price ++
    ".\nTarget price was " ++ pyFloatRepr target_price ++ ".\nURL: " ++ url

/-- `check_price(url, target_price)`: one recheck cycle.  All exceptions
from scraping, float parsing, database access and notification dispatch
are caught inside the task body (totality of this function mirrors that);
the final `apply_async` always runs with the same arguments and countdown
`3600 + r`.  `target_price` is optional because the tracker can enqueue
`None` (comparing against `None` raises `TypeError` after the history
commit, caught by the inner `except`). -/
def check_price (url : String) (target_price : Option ℚ) (db : DB)
    (env : CycleEnv) : CycleResult :=
  let inner : DB × List String :=
    match env.scrape with
    | none => (db, [])
    | some fetch =>
      let info := scrape_product_info url fetch
      match pyFloatOfString (stripDollarsCommas info.price) with
      | none => (db, [])
      | some current_price =>
        if env.dbFail then (db, [])
        else
          match db.products.find? (fun p => p.url == url) with
          | some product =>
            let db1 : DB := ⟨db.products, db.history ++ [⟨product.id, some current_price⟩]⟩
            match target_price with
            | some tp =>
              if should_notify current_price tp then
                if env.notifyFail then (db1, []) else (db1, [dropMessage info.title info.price tp url])
              else (db1, [])
            | none => (db1, [])
          | none => (db, [])
  ⟨inner.1, inner.2, [⟨url, target_price, 3600 + env.r⟩]⟩

/-! ### Threshold derivation in the tracker (`backend/routers/tracker.py` 43–105) -/

/-- Python falsiness of an optional float (`None` and `0.0` are falsy). -/
def ratOptFalsy : Option ℚ → Bool
  | none => true
  | some q => q == 0

/-- Lines 67–71 of `tracker.py`: `if not product.target_price and
current_price: product.target_price = round(current_price * 0.9, 2)`. -/
def derive_target (provided current_price : Option ℚ) : Option ℚ :=
  if ratOptFalsy provided && !(ratOptFalsy current_price) then
    current_price.map (fun p => pyRound2 (p * (9 / 10)))
  else provided

/-- `track_product` (happy path plus the duplicate guard): reject an
already-tracked URL with a 400 (`none`); otherwise store the product with
the (possibly derived) threshold, append the first history row, and
enqueue the first `check_price` continuation with no countdown. -/
def track_product (db : DB) (url : String) (provided : Option ℚ)
    (info : ProductInfo) (newId : Nat) : Option (DB × Continuation) :=
  if db.products.any (fun p => p.url == url) then none
  else
    let tp := derive_target provided info.price_float
    some (⟨db.products ++ [⟨newId, url, tp⟩], db.history ++ [⟨newId, info.price_float⟩]⟩,
          ⟨url, tp, 0⟩)

/-! ### Derived notions used by the analysis -/

/-- The `(url, target_price)` argument pair of the `n`-th cycle in a
self-rescheduling chain: each next cycle runs with the arguments carried
by the continuation the previous cycle enqueued.  The databases and
environments of the successive cycles are arbitrary. -/
def cycleChainArgs (url : String) (tp : Option ℚ) (dbs : Nat → DB)
    (envs : Nat → CycleEnv) : Nat → String × Option ℚ
  | 0 => (url, tp)
  | n + 1 =>
    let a := cycleChainArgs url tp dbs envs n
    match (check_price a.1 a.2 (dbs n) (envs n)).continuations with
    | [c] => (c.url, c.target_price)
    | _ => a

/-- A schema.org `Product` JSON-LD object with the given offer price. -/
def productJsonLd (price : String) : Json :=
  .obj [("@type", .str "Product"), ("offers", .obj [("price", .str price)])]

/-- A page whose only signal is the embedded `Product` JSON-LD object. -/
def jsonOnlySoup (price : String) : Soup := ⟨[], [some (productJsonLd price)]⟩

/-- A driver for which every CSS lookup raises `NoSuchElementException`. -/
def emptyDriver : Driver := ⟨fun _ => none⟩

/-- A successful fetch of the JSON-LD-only page. -/
def jsonOnlyFetch (price : String) : FetchOutcome :=
  .success (jsonOnlySoup price) emptyDriver

/-! ## Lemma infrastructure -/

lemma digitChar_isDigit {d : Nat} (h : d < 10) : (digitChar d).isDigit = true := by
  interval_cases d <;> decide

lemma digitVal_digitChar {d : Nat} (h : d < 10) : digitVal (digitChar d) = d := by
  interval_cases d <;> decide

lemma isDigit_ne_comma {c : Char} (h : c.isDigit = true) : c ≠ ',' := by
  intro hc; subst hc; simp at h

lemma natDigitsAux_all_digits :
    ∀ fuel n, ∀ c ∈ natDigitsAux fuel n, c.isDigit = true := by
  intro fuel
  induction fuel with
  | zero => intro n c hc; simp [natDigitsAux] at hc
  | succ f ih =>
    intro n c hc
    by_cases h : n < 10
    · simp [natDigitsAux, h] at hc
      subst hc; exact digitChar_isDigit h
    · simp [natDigitsAux, h] at hc
      rcases hc with hc | hc
      · exact ih _ _ hc
      · subst hc; exact digitChar_isDigit (Nat.mod_lt _ (by omega))

lemma natDigitsAux_ne_nil {fuel n : Nat} (h : 0 < fuel) : natDigitsAux fuel n ≠ [] := by
  cases fuel with
  | zero => omega
  | succ f =>
    by_cases h10 : n < 10
    · simp [natDigitsAux, h10]
    · simp [natDigitsAux, h10]

lemma digitsToNat_append (l : List Char) (c : Char) :
    digitsToNat (l ++ [c]) = digitsToNat l * 10 + digitVal c := by
  simp [digitsToNat, List.foldl_append]

lemma digitsToNat_natDigitsAux :
    ∀ fuel n, n < fuel → digitsToNat (natDigitsAux fuel n) = n := by
  intro fuel
  induction fuel with
  | zero => omega
  | succ f ih =>
    intro n hn
    by_cases h : n < 10
    · simp [natDigitsAux, h, digitsToNat, digitVal_digitChar h]
    · have hdiv : n / 10 < n := Nat.div_lt_self (by omega) (by omega)
      rw [natDigitsAux]
      simp only [if_neg h]
      rw [digitsToNat_append, ih _ (by omega), digitVal_digitChar (Nat.mod_lt _ (by omega))]
      omega

lemma digitsToNat_natDigits (n : Nat) : digitsToNat (natDigits n) = n :=
  digitsToNat_natDigitsAux (n + 1) n (by omega)

lemma natDigits_all_digits {c : Char} {n : Nat} (h : c ∈ natDigits n) :
    c.isDigit = true := natDigitsAux_all_digits _ _ _ h

lemma natDigits_ne_nil (n : Nat) : natDigits n ≠ [] := natDigitsAux_ne_nil (by omega)

lemma takeDigits_spec (l₁ l₂ : List Char) (h₁ : ∀ c ∈ l₁, c.isDigit = true)
    (h₂ : ∀ c, l₂.head? = some c → c.isDigit = false) :
    takeDigits (l₁ ++ l₂) = (l₁, l₂) := by
  induction l₁ with
  | nil =>
    cases l₂ with
    | nil => rfl
    | cons c cs => simp [takeDigits, h₂ c rfl]
  | cons c l ih =>
    have hc : c.isDigit = true := h₁ c (by simp)
    simp only [List.cons_append, takeDigits, hc, if_true]
    simp only [List.append_eq] at ih ⊢
    rw [ih (fun x hx => h₁ x (by simp [hx]))]

lemma scanToken_skip {c : Char} (h : c.isDigit = false) (cs : List Char) :
    scanToken (c :: cs) = scanToken cs := by
  simp [scanToken, h]

lemma scanToken_digits_dot (a : Nat) (c1 c2 : Char)
    (h1 : c1.isDigit = true) (h2 : c2.isDigit = true) :
    scanToken (natDigits a ++ '.' :: [c1, c2]) = some (natDigits a, [c1, c2]) := by
  obtain ⟨d, ds, hform⟩ := List.exists_cons_of_ne_nil (natDigits_ne_nil a)
  have hd : d.isDigit = true := natDigits_all_digits (by rw [hform]; simp)
  have htake : takeDigits (natDigits a ++ '.' :: [c1, c2]) = (natDigits a, '.' :: [c1, c2]) :=
    takeDigits_spec _ _ (fun c hc => natDigits_all_digits hc)
      (by intro c hc; simp at hc; subst hc; decide)
  have htake2 : takeDigits [c1, c2] = ([c1, c2], []) := by
    have := takeDigits_spec [c1, c2] [] (by
      intro c hc; simp at hc; rcases hc with hc | hc <;> (subst hc; assumption))
      (by intro c hc; simp at hc)
    simpa using this
  rw [hform]
  rw [List.cons_append]
  rw [scanToken]
  simp only [hd, if_true]
  rw [← List.cons_append, ← hform, htake]
  simp [htake2]

lemma digitsToNat_pair {v : Nat} (hv : v < 100) :
    digitsToNat [digitChar (v / 10), digitChar (v % 10)] = v := by
  have h1 : v / 10 < 10 := by omega
  have h2 : v % 10 < 10 := by omega
  simp [digitsToNat, digitVal_digitChar h1, digitVal_digitChar h2]
  omega

lemma rne_cases (x : ℚ) : rne x = ⌊x⌋ ∨ rne x = ⌊x⌋ + 1 := by
  unfold rne
  split_ifs <;> simp

lemma rne_nonneg {x : ℚ} (hx : 0 ≤ x) : 0 ≤ rne x := by
  have hf : (0 : ℤ) ≤ ⌊x⌋ := Int.floor_nonneg.2 hx
  rcases rne_cases x with h | h <;> omega

lemma rne_intCast (k : ℤ) : rne (k : ℚ) = k := by
  unfold rne
  rw [Int.floor_intCast]
  norm_num

lemma strData_append (a b : String) : (a ++ b).data = a.data ++ b.data := rfl

/-- The exact value of a freshly formatted price string: parsing
`format_price (some x)` recovers `rne (x*100) / 100`. -/
lemma parse_price_format_price {x : ℚ} (hx : 0 ≤ x) :
    parse_price (format_price (some x)) = some ((rne (x * 100) : ℚ) / 100) := by
  have hn0 : 0 ≤ rne (x * 100) := rne_nonneg (by positivity)
  set n : ℤ := rne (x * 100) with hn_def
  set m : Nat := n.natAbs with hm_def
  have hnlt : ¬ (n < 0) := not_lt.2 hn0
  have hfmt : format_price (some x)
      = "$" ++ "" ++ natStr (m / 100) ++ "." ++ natStr2 (m % 100) := by
    simp only [format_price]
    rw [← hn_def, ← hm_def, if_neg hnlt]
  have hdata : (format_price (some x)).data
      = '$' :: (natDigits (m / 100) ++ '.' ::
          [digitChar (m % 100 / 10), digitChar (m % 100 % 10)]) := by
    rw [hfmt]
    simp only [strData_append]
    show ['$'] ++ [] ++ natDigits (m / 100) ++ ['.']
        ++ [digitChar (m % 100 / 10), digitChar (m % 100 % 10)] = _
    simp
  have hne1 : format_price (some x) ≠ "" := by
    intro h
    have h2 := congrArg String.data h
    rw [hdata] at h2
    simp at h2
  have hne2 : format_price (some x) ≠ "Price not found" := by
    intro h
    have h2 := congrArg String.data h
    rw [hdata] at h2
    simp at h2
  have hstripdata : (stripCommas (format_price (some x))).data
      = '$' :: (natDigits (m / 100) ++ '.' ::
          [digitChar (m % 100 / 10), digitChar (m % 100 % 10)]) := by
    have hrfl : (stripCommas (format_price (some x))).data
        = List.filter (fun c => c != ',') (format_price (some x)).data := rfl
    rw [hrfl, hdata, List.filter_eq_self]
    intro a ha
    simp only [List.mem_cons, List.mem_append] at ha
    rcases ha with rfl | ha | rfl | rfl | rfl | ha
    · decide
    · simpa using isDigit_ne_comma (natDigits_all_digits ha)
    · decide
    · simpa using isDigit_ne_comma (digitChar_isDigit (by omega))
    · simpa using isDigit_ne_comma (digitChar_isDigit (by omega))
    · simp at ha
  have hscan : scanToken (stripCommas (format_price (some x))).data
      = some (natDigits (m / 100),
          [digitChar (m % 100 / 10), digitChar (m % 100 % 10)]) := by
    rw [hstripdata, scanToken_skip (by decide)]
    exact scanToken_digits_dot _ _ _ (digitChar_isDigit (by omega)) (digitChar_isDigit (by omega))
  unfold parse_price
  rw [if_neg (not_or.mpr ⟨hne1, hne2⟩), hscan]
  show some (tokenVal (natDigits (m / 100))
      [digitChar (m % 100 / 10), digitChar (m % 100 % 10)]) = _
  congr 1
  unfold tokenVal
  rw [digitsToNat_natDigits, digitsToNat_pair (by omega)]
  simp only [List.length_cons, List.length_nil]
  have hsplit : (m : ℚ) = ((m / 100 : Nat) : ℚ) * 100 + ((m % 100 : Nat) : ℚ) := by
    exact_mod_cast (by omega : m = m / 100 * 100 + m % 100)
  have hkey : ((m / 100 : Nat) : ℚ) + ((m % 100 : Nat) : ℚ) / (10 : ℚ) ^ (0 + 1 + 1)
      = (m : ℚ) / 100 := by
    rw [hsplit]
    ring
  rw [hkey]
  have hmcast : ((m : ℚ)) = ((n : ℤ) : ℚ) := by
    rw [hm_def, Int.cast_natAbs]
    exact_mod_cast abs_of_nonneg hn0
  rw [hmcast]

lemma isPrefixOf_append_self (l t : List Char) : l.isPrefixOf (l ++ t) = true := by
  induction l with
  | nil => cases t <;> rfl
  | cons c l ih => simp [List.isPrefixOf, ih]

lemma containsSubList_append (pre mid post : List Char) :
    containsSubList (pre ++ (mid ++ post)) mid = true := by
  induction pre with
  | nil =>
    rw [List.nil_append]
    unfold containsSubList
    rw [isPrefixOf_append_self]
    simp
  | cons c pre ih =>
    rw [List.cons_append]
    unfold containsSubList
    simp [ih]

lemma strContains_of_concat3 (m s pre post : String) (h : m = pre ++ s ++ post) :
    strContainsSub m s = true := by
  subst h
  unfold strContainsSub
  rw [strData_append, strData_append, List.append_assoc]
  exact containsSubList_append _ _ _

lemma strContains_of_concat2 (m s pre : String) (h : m = pre ++ s) :
    strContainsSub m s = true := by
  subst h
  unfold strContainsSub
  rw [strData_append]
  have h2 : pre.data ++ s.data = pre.data ++ (s.data ++ []) := by simp
  rw [h2]
  exact containsSubList_append _ _ _

/-- The recheck cycle never modifies the products table (in particular it
never sets or changes a stored threshold): only a history row is added. -/
lemma check_price_products_stable (url : String) (tp : Option ℚ) (db : DB)
    (env : CycleEnv) : (check_price url tp db env).db.products = db.products := by
  rcases env with ⟨scr, dbf, ntf, r⟩
  dsimp only [check_price]
  repeat' split
  all_goals rfl

/-! ### Concrete evaluations used by witnesses and counterexamples -/

lemma parse_price_48 : parse_price "$48.00" = some (48 : ℚ) := by
  have h : scanToken (stripCommas "$48.00").data = some (['4','8'], ['0','0']) := by decide
  have h2 : digitsToNat ['4','8'] = 48 := by decide
  have h3 : digitsToNat ['0','0'] = 0 := by decide
  simp [parse_price, h, tokenVal, h2, h3]

lemma parse_price_80 : parse_price "$80.00" = some (80 : ℚ) := by
  have h : scanToken (stripCommas "$80.00").data = some (['8','0'], ['0','0']) := by decide
  have h2 : digitsToNat ['8','0'] = 80 := by decide
  have h3 : digitsToNat ['0','0'] = 0 := by decide
  simp [parse_price, h, tokenVal, h2, h3]

lemma parse_price_100 : parse_price "$100.00" = some (100 : ℚ) := by
  have h : scanToken (stripCommas "$100.00").data = some (['1','0','0'], ['0','0']) := by decide
  have h2 : digitsToNat ['1','0','0'] = 100 := by decide
  have h3 : digitsToNat ['0','0'] = 0 := by decide
  simp [parse_price, h, tokenVal, h2, h3]

lemma format_price_48 : format_price (some (48 : ℚ)) = "$48.00" := by
  have h : rne ((48 : ℚ) * 100) = 4800 := by
    rw [show ((48 : ℚ) * 100) = ((4800 : ℤ) : ℚ) by norm_num, rne_intCast]
  simp [format_price, h]
  decide

lemma format_price_80 : format_price (some (80 : ℚ)) = "$80.00" := by
  have h : rne ((80 : ℚ) * 100) = 8000 := by
    rw [show ((80 : ℚ) * 100) = ((8000 : ℤ) : ℚ) by norm_num, rne_intCast]
  simp [format_price, h]
  decide

lemma format_price_100 : format_price (some (100 : ℚ)) = "$100.00" := by
  have h : rne ((100 : ℚ) * 100) = 10000 := by
    rw [show ((100 : ℚ) * 100) = ((10000 : ℤ) : ℚ) by norm_num, rne_intCast]
  simp [format_price, h]
  decide

lemma pyFloat_80 : pyFloatOfString "80.00" = some (80 : ℚ) := by
  have h1 : ((("80.00".data.dropWhile (fun c => c.isWhitespace)).reverse.dropWhile
      (fun c => c.isWhitespace)).reverse : List Char) = ['8', '0', '.', '0', '0'] := by decide
  have h2 : takeDigits ['8', '0', '.', '0', '0'] = (['8', '0'], ['.', '0', '0']) := by decide
  have h3 : takeDigits ['0', '0'] = (['0', '0'], []) := by decide
  have h4 : digitsToNat ['8', '0'] = 80 := by decide
  have h5 : digitsToNat ['0', '0'] = 0 := by decide
  rw [pyFloatOfString, h1]
  show pyFloatOfString.pyFloatUnsigned ['8', '0', '.', '0', '0'] = some 80
  rw [pyFloatOfString.pyFloatUnsigned, h2]
  simp [h3, h4, h5]

lemma pyFloat_100 : pyFloatOfString "100.00" = some (100 : ℚ) := by
  have h1 : ((("100.00".data.dropWhile (fun c => c.isWhitespace)).reverse.dropWhile
      (fun c => c.isWhitespace)).reverse : List Char) = ['1', '0', '0', '.', '0', '0'] := by decide
  have h2 : takeDigits ['1', '0', '0', '.', '0', '0'] = (['1', '0', '0'], ['.', '0', '0']) := by
    decide
  have h3 : takeDigits ['0', '0'] = (['0', '0'], []) := by decide
  have h4 : digitsToNat ['1', '0', '0'] = 100 := by decide
  have h5 : digitsToNat ['0', '0'] = 0 := by decide
  rw [pyFloatOfString, h1]
  show pyFloatOfString.pyFloatUnsigned ['1', '0', '0', '.', '0', '0'] = some 100
  rw [pyFloatOfString.pyFloatUnsigned, h2]
  simp [h3, h4, h5]

/-! ## Claim theorems -/

/-- C9: on every return path of `scrape_product_info` — success, page
load timeout, or any other scraping error — the result is the
fixed-shape record whose `price` string equals `format_price` of its
`price_float` (the canonical two-decimal rendering, or the sentinel when
the float is `None`), and whose `url` is the input URL. -/
theorem scrape_product_info_shape_invariant (url : String) (fetch : FetchOutcome) :
    (scrape_product_info url fetch).price
      = format_price (scrape_product_info url fetch).price_float ∧
    (scrape_product_info url fetch).url = url := by
  cases fetch <;> exact ⟨rfl, rfl⟩

/-- C1: no matter which step of the cycle raises (scrape, float parse,
database access, notification dispatch — all modelled by `CycleEnv`),
`check_price` enqueues exactly one continuation, for the same URL and
target price, with countdown `3600 + r`; for any jitter drawn from
`[-600, 600]` the countdown lies in `[3000, 4200]`. -/
theorem check_price_always_reschedules (url : String) (tp : Option ℚ) (db : DB)
    (env : CycleEnv) (h1 : -600 ≤ env.r) (h2 : env.r ≤ 600) :
    (check_price url tp db env).continuations = [⟨url, tp, 3600 + env.r⟩] ∧
    3000 ≤ 3600 + env.r ∧ 3600 + env.r ≤ 4200 :=
  ⟨rfl, by omega, by omega⟩

theorem check_price_always_reschedules_witness :
    (check_price "https://example.com/p" none ⟨[], []⟩ ⟨none, false, false, 0⟩).continuations
      = [⟨"https://example.com/p", none, 3600 + (0 : ℤ)⟩] ∧
    3000 ≤ 3600 + (0 : ℤ) ∧ 3600 + (0 : ℤ) ≤ 4200 :=
  check_price_always_reschedules _ _ _ _ (by decide) (by decide)

/-- C5: the round-trip property — parsing a formatted price recovers
`round(x, 2)` for every non-negative `x`, and is the identity on values
with exactly two decimal places (`x = k/100`). -/
theorem parse_format_roundtrip :
    (∀ x : ℚ, 0 ≤ x → parse_price (format_price (some x)) = some (pyRound2 x)) ∧
    (∀ k : Nat, k ≤ 1000000 →
      parse_price (format_price (some ((k : ℚ) / 100))) = some ((k : ℚ) / 100)) := by
  constructor
  · intro x hx
    exact parse_price_format_price hx
  · intro k _
    have h := parse_price_format_price (x := (k : ℚ) / 100) (by positivity)
    rw [h]
    congr 1
    have : ((k : ℚ) / 100 * 100) = ((k : ℤ) : ℚ) := by push_cast; ring
    rw [this, rne_intCast]
    push_cast
    ring

theorem parse_format_roundtrip_witness :
    0 ≤ (19.9 : ℚ) ∧
    parse_price (format_price (some (19.9 : ℚ))) = some (pyRound2 (19.9 : ℚ)) :=
  ⟨by norm_num, parse_format_roundtrip.1 (19.9 : ℚ) (by norm_num)⟩

/-- C7: `parse_price` is total and returns `None` exactly for the empty
string, the `"Price not found"` sentinel, and strings with no numeric
token; otherwise it strips thousands separators and returns the first
numeric token as a float.  `format_price` renders `None` as the sentinel.
The listed concrete examples hold. -/
theorem parse_price_error_handling :
    (∀ s : String,
      s = "" ∨ s = "Price not found" ∨ scanToken (stripCommas s).data = none →
      parse_price s = none) ∧
    (∀ (s : String) (ds fs : List Char), s ≠ "" → s ≠ "Price not found" →
      scanToken (stripCommas s).data = some (ds, fs) →
      parse_price s = some (tokenVal ds fs)) ∧
    parse_price "$1,234.56" = some (1234.56 : ℚ) ∧
    parse_price "Price not found" = none ∧
    format_price none = "Price not found" ∧
    format_price (some (19.9 : ℚ)) = "$19.90" := by
  refine ⟨?_, ?_, ?_, by decide, by decide, ?_⟩
  · intro s h
    unfold parse_price
    by_cases hc : s = "" ∨ s = "Price not found"
    · rw [if_pos hc]
    · rw [if_neg hc]
      rcases h with h | h | h
      · exact absurd (Or.inl h) hc
      · exact absurd (Or.inr h) hc
      · rw [h]
  · intro s ds fs h1 h2 h3
    unfold parse_price
    rw [if_neg (not_or.mpr ⟨h1, h2⟩), h3]
  · have h : scanToken (stripCommas "$1,234.56").data = some (['1','2','3','4'], ['5','6']) := by
      decide
    have h2 : digitsToNat ['1','2','3','4'] = 1234 := by decide
    have h3 : digitsToNat ['5','6'] = 56 := by decide
    simp [parse_price, h, tokenVal, h2, h3]
    norm_num
  · have h : rne ((19.9 : ℚ) * 100) = 1990 := by
      rw [show ((19.9 : ℚ) * 100) = ((1990 : ℤ) : ℚ) by norm_num, rne_intCast]
    simp [format_price, h]
    decide

theorem parse_price_error_handling_witness : parse_price "" = none :=
  parse_price_error_handling.1 "" (Or.inl rfl)

/-- C6: adapter selection is a pure total function of the URL: the
lowercased netloc is tested for keyword containment against the fixed
table in order; the first match's adapter kind is returned, `"generic"`
otherwise; two URLs with the same lowercased host select the same
adapter. -/
theorem select_adapter_spec :
    (∀ url : String,
      (∀ kv ∈ DOMAIN_TO_WEBSITE_TYPE,
        strContainsSub (strLower (urlNetloc url)) kv.1 = false) →
      get_website_type url = "generic") ∧
    (∀ (url : String) (pre post : List (String × String)) (k v : String),
      DOMAIN_TO_WEBSITE_TYPE = pre ++ (k, v) :: post →
      (∀ kv ∈ pre, strContainsSub (strLower (urlNetloc url)) kv.1 = false) →
      strContainsSub (strLower (urlNetloc url)) k = true →
      get_website_type url = v) ∧
    (∀ url₁ url₂ : String,
      strLower (urlNetloc url₁) = strLower (urlNetloc url₂) →
      get_website_type url₁ = get_website_type url₂) := by
  refine ⟨?_, ?_, ?_⟩
  · intro url h
    have hf : DOMAIN_TO_WEBSITE_TYPE.find?
        (fun kv => strContainsSub (strLower (urlNetloc url)) kv.1) = none :=
      List.find?_eq_none.mpr (fun kv hkv => by simp [h kv hkv])
    simp only [get_website_type, hf]
  · intro url pre post k v htab hpre hk
    have hfpre : pre.find? (fun kv => strContainsSub (strLower (urlNetloc url)) kv.1) = none :=
      List.find?_eq_none.mpr (fun kv hkv => by simp [hpre kv hkv])
    have hfcons : ((k, v) :: post).find?
        (fun kv => strContainsSub (strLower (urlNetloc url)) kv.1) = some (k, v) :=
      List.find?_cons_of_pos _ (by simpa using hk)
    simp only [get_website_type, htab, List.find?_append, hfpre, hfcons, Option.none_or]
  · intro url₁ url₂ h
    simp only [get_website_type, h]

theorem select_adapter_spec_witness :
    get_website_type "https://www.amazon.com/product" = "amazon" :=
  select_adapter_spec.2.1 "https://www.amazon.com/product" []
    [("walmart", "walmart"), ("bestbuy", "bestbuy"), ("target", "target"),
     ("ebay", "ebay"), ("sephora", "sephora"), ("dedcool", "dedcool"),
     ("costco", "costco")]
    "amazon" "amazon" rfl (by simp) (by decide)

/-- C8: a recheck cycle for a URL with no matching product leaves the
database untouched, sends nothing, and still enqueues the single
continuation for the same target. -/
theorem deleted_target_cycle_noop (url : String) (tp : Option ℚ) (db : DB)
    (env : CycleEnv) (h : ∀ p ∈ db.products, p.url ≠ url) :
    check_price url tp db env = ⟨db, [], [⟨url, tp, 3600 + env.r⟩]⟩ := by
  have hfind : db.products.find? (fun p => p.url == url) = none :=
    List.find?_eq_none.mpr (fun p hp => by simp [h p hp])
  rcases env with ⟨scr, dbf, ntf, r⟩
  dsimp only [check_price]
  cases scr with
  | none => rfl
  | some fetch =>
    dsimp only
    cases pyFloatOfString (stripDollarsCommas (scrape_product_info url fetch).price) with
    | none => rfl
    | some p =>
      cases dbf with
      | true => rfl
      | false =>
        dsimp only
        rw [hfind]
        rfl

theorem deleted_target_cycle_noop_witness :
    check_price "https://example.com/gone" (some 50)
        ⟨[⟨1, "https://example.com/other", none⟩], []⟩ ⟨none, false, false, 7⟩
      = ⟨⟨[⟨1, "https://example.com/other", none⟩], []⟩, [],
         [⟨"https://example.com/gone", some 50, 3600 + (7 : ℤ)⟩]⟩ :=
  deleted_target_cycle_noop _ _ _ _ (by
    intro p hp
    simp only [List.mem_singleton] at hp
    subst hp
    decide)

/-- C10: every continuation carries the invoking cycle's own `url` and
`target_price`; the notification comparison reads the `target_price`
argument, not the stored threshold (rewriting every stored threshold
changes no notification); hence every cycle of a chain started with a
given argument pair runs with exactly that pair. -/
theorem continuation_args_invariant :
    (∀ (url : String) (tp : Option ℚ) (db : DB) (env : CycleEnv),
      (check_price url tp db env).continuations = [⟨url, tp, 3600 + env.r⟩]) ∧
    (∀ (url : String) (tp : Option ℚ) (ps : List Product) (hist : List PriceEntry)
       (env : CycleEnv) (f : Product → Option ℚ),
      (check_price url tp ⟨ps.map (fun p => ⟨p.id, p.url, f p⟩), hist⟩ env).notifications
        = (check_price url tp ⟨ps, hist⟩ env).notifications) ∧
    (∀ (url : String) (tp : Option ℚ) (dbs : Nat → DB) (envs : Nat → CycleEnv) (n : Nat),
      cycleChainArgs url tp dbs envs n = (url, tp)) := by
  refine ⟨fun _ _ _ _ => rfl, ?_, ?_⟩
  · intro url tp ps hist env f
    rcases env with ⟨scr, dbf, ntf, r⟩
    dsimp only [check_price]
    cases scr with
    | none => rfl
    | some fetch =>
      dsimp only
      cases pyFloatOfString (stripDollarsCommas (scrape_product_info url fetch).price) with
      | none => rfl
      | some p =>
        cases dbf with
        | true => rfl
        | false =>
          dsimp only
          have hmap : (ps.map (fun q => (⟨q.id, q.url, f q⟩ : Product))).find?
              (fun q => q.url == url)
              = (ps.find? (fun q => q.url == url)).map (fun q => ⟨q.id, q.url, f q⟩) := by
            rw [List.find?_map]
            congr 1
          rw [hmap]
          cases ps.find? (fun q => q.url == url) with
          | none => rfl
          | some q =>
            dsimp only [Option.map]
            cases tp with
            | none => rfl
            | some t =>
              dsimp only
              cases should_notify p t with
              | false => rfl
              | true => cases ntf <;> rfl
  · intro url tp dbs envs n
    induction n with
    | zero => rfl
    | succ n ih =>
      show (match (check_price (cycleChainArgs url tp dbs envs n).1
          (cycleChainArgs url tp dbs envs n).2 (dbs n) (envs n)).continuations with
        | [c] => (c.url, c.target_price)
        | _ => cycleChainArgs url tp dbs envs n) = (url, tp)
      rw [ih]
      rfl

/-- C4: threshold evaluation is the pure inclusive comparison
`observed <= target` (`should_notify 90 90` is true, `should_notify
90.01 90` is false); in a cycle where nothing raises, the product
exists, and the parsed price meets the threshold, exactly one message is
dispatched and it contains the title, the price string, the rendered
threshold, and the URL. -/
theorem threshold_inclusive_notification
    (url : String) (tp : ℚ) (db : DB) (env : CycleEnv) (fetch : FetchOutcome)
    (product : Product) (p : ℚ)
    (hs : env.scrape = some fetch) (hdb : env.dbFail = false) (hnf : env.notifyFail = false)
    (hp : pyFloatOfString (stripDollarsCommas (scrape_product_info url fetch).price) = some p)
    (hfind : db.products.find? (fun q => q.url == url) = some product) :
    should_notify (90 : ℚ) 90 = true ∧
    should_notify (90.01 : ℚ) 90 = false ∧
    should_notify p tp = decide (p ≤ tp) ∧
    (check_price url (some tp) db env).notifications
      = (if should_notify p tp
         then [dropMessage (scrape_product_info url fetch).title
                 (scrape_product_info url fetch).price tp url]
         else []) ∧
    (∀ msg ∈ (check_price url (some tp) db env).notifications,
      strContainsSub msg (scrape_product_info url fetch).title = true ∧
      strContainsSub msg (scrape_product_info url fetch).price = true ∧
      strContainsSub msg (pyFloatRepr tp) = true ∧
      strContainsSub msg url = true) := by
  have hmain : (check_price url (some tp) db env).notifications
      = (if should_notify p tp
         then [dropMessage (scrape_product_info url fetch).title
                 (scrape_product_info url fetch).price tp url]
         else []) := by
    rcases env with ⟨scr, dbf, ntf, r⟩
    simp only at hs hdb hnf
    subst hs
    subst hdb
    subst hnf
    dsimp only [check_price]
    rw [hp, hfind]
    dsimp only
    cases should_notify p tp <;> rfl
  refine ⟨by simp [should_notify], ?_, rfl, hmain, ?_⟩
  · simp only [should_notify, decide_eq_false_iff_not]
    norm_num
  · intro msg hmsg
    rw [hmain] at hmsg
    by_cases hc : should_notify p tp = true
    · rw [if_pos hc] at hmsg
      simp only [List.mem_singleton] at hmsg
      subst hmsg
      refine ⟨?_, ?_, ?_, ?_⟩
      · exact strContains_of_concat3 _ _ "Price drop alert! "
          (" is now " ++ (scrape_product_info url fetch).price
            ++ ".\nTarget price was " ++ pyFloatRepr tp ++ ".\nURL: " ++ url)
          (by simp [dropMessage, String.append_assoc])
      · exact strContains_of_concat3 _ _
          ("Price drop alert! " ++ (scrape_product_info url fetch).title ++ " is now ")
          (".\nTarget price was " ++ pyFloatRepr tp ++ ".\nURL: " ++ url)
          (by simp [dropMessage, String.append_assoc])
      · exact strContains_of_concat3 _ _
          ("Price drop alert! " ++ (scrape_product_info url fetch).title ++ " is now "
            ++ (scrape_product_info url fetch).price ++ ".\nTarget price was ")
          (".\nURL: " ++ url)
          (by simp [dropMessage, String.append_assoc])
      · exact strContains_of_concat2 _ _
          ("Price drop alert! " ++ (scrape_product_info url fetch).title ++ " is now "
            ++ (scrape_product_info url fetch).price ++ ".\nTarget price was "
            ++ pyFloatRepr tp ++ ".\nURL: ")
          (by simp [dropMessage, String.append_assoc])
    · rw [if_neg hc] at hmsg
      simp at hmsg

theorem threshold_inclusive_notification_witness :
    should_notify (90 : ℚ) 90 = true ∧
    should_notify (90.01 : ℚ) 90 = false ∧
    should_notify (80 : ℚ) 90 = decide ((80 : ℚ) ≤ 90) ∧
    (check_price "https://example.com/product" (some 90)
        ⟨[⟨1, "https://example.com/product", none⟩], []⟩
        ⟨some (jsonOnlyFetch "80.00"), false, false, 0⟩).notifications
      = (if should_notify (80 : ℚ) 90
         then [dropMessage
                (scrape_product_info "https://example.com/product" (jsonOnlyFetch "80.00")).title
                (scrape_product_info "https://example.com/product" (jsonOnlyFetch "80.00")).price
                90 "https://example.com/product"]
         else []) ∧
    (∀ msg ∈ (check_price "https://example.com/product" (some 90)
        ⟨[⟨1, "https://example.com/product", none⟩], []⟩
        ⟨some (jsonOnlyFetch "80.00"), false, false, 0⟩).notifications,
      strContainsSub msg
        (scrape_product_info "https://example.com/product" (jsonOnlyFetch "80.00")).title = true ∧
      strContainsSub msg
        (scrape_product_info "https://example.com/product" (jsonOnlyFetch "80.00")).price = true ∧
      strContainsSub msg (pyFloatRepr 90) = true ∧
      strContainsSub msg "https://example.com/product" = true) :=
  threshold_inclusive_notification "https://example.com/product" 90 _ _
    (jsonOnlyFetch "80.00") ⟨1, "https://example.com/product", none⟩ 80
    rfl rfl rfl
    (by
      have e1 : (scrape_product_info "https://example.com/product"
          (jsonOnlyFetch "80.00")).price = format_price (parse_price "$80.00") := rfl
      rw [e1, parse_price_80, format_price_80,
        show stripDollarsCommas "$80.00" = "80.00" from by decide]
      exact pyFloat_80)
    rfl

/-- C2, counterexample: on a page whose only price signal is the
schema.org `Product` JSON-LD object with price `48.00`, the Amazon
adapter returns the `"Price not found"` sentinel — not `"$48.00"` as the
claim asserts for every adapter kind. -/
theorem amazon_ignores_structured_data :
    (scrape_product_info "https://www.amazon.com/dp/item" (jsonOnlyFetch "48.00")).price
      = "Price not found" ∧
    ("Price not found" : String) ≠ "$48.00" :=
  ⟨rfl, by decide⟩

/-- C2, amended: on the JSON-LD-only page, extraction yields `"$48.00"`
for the Generic, DedCool, Costco and Sephora adapters (the first three
try structured data first, Sephora tries it second after a site-specific
DOM candidate), while the Amazon, Walmart, BestBuy, Target and eBay
adapters never consult structured data and return the sentinel. -/
theorem structured_data_extraction_by_adapter :
    ((scrape_product_info "https://example.com/product" (jsonOnlyFetch "48.00")).price
        = "$48.00" ∧
     (scrape_product_info "https://dedcool.com/products/item" (jsonOnlyFetch "48.00")).price
        = "$48.00" ∧
     (scrape_product_info "https://www.costco.com/item" (jsonOnlyFetch "48.00")).price
        = "$48.00" ∧
     (scrape_product_info "https://www.sephora.com/product/item" (jsonOnlyFetch "48.00")).price
        = "$48.00") ∧
    ((scrape_product_info "https://www.amazon.com/dp/item" (jsonOnlyFetch "48.00")).price
        = "Price not found" ∧
     (scrape_product_info "https://www.walmart.com/ip/item" (jsonOnlyFetch "48.00")).price
        = "Price not found" ∧
     (scrape_product_info "https://www.bestbuy.com/site/item" (jsonOnlyFetch "48.00")).price
        = "Price not found" ∧
     (scrape_product_info "https://www.target.com/p/item" (jsonOnlyFetch "48.00")).price
        = "Price not found" ∧
     (scrape_product_info "https://www.ebay.com/itm/item" (jsonOnlyFetch "48.00")).price
        = "Price not found") := by
  have h48 : format_price (parse_price "$48.00") = "$48.00" := by
    rw [parse_price_48, format_price_48]
  exact ⟨⟨Eq.trans (by rfl) h48, Eq.trans (by rfl) h48,
          Eq.trans (by rfl) h48, Eq.trans (by rfl) h48⟩,
         rfl, rfl, rfl, rfl, rfl⟩

/-- C3, counterexample: a recheck cycle that successfully normalizes a
price of `100.00` for a target whose threshold was never set leaves the
stored threshold `None` — it does not derive `90.00` (i.e. `round(100 *
0.9, 2)`), contradicting the claim that the recheck cycle performs the
derivation. -/
theorem recheck_cycle_never_derives_threshold :
    pyFloatOfString (stripDollarsCommas
        (scrape_product_info "https://example.com/product" (jsonOnlyFetch "100.00")).price)
      = some (100 : ℚ) ∧
    pyRound2 ((100 : ℚ) * (9 / 10)) = 90 ∧
    (check_price "https://example.com/product" none
        ⟨[⟨1, "https://example.com/product", none⟩], []⟩
        ⟨some (jsonOnlyFetch "100.00"), false, false, 0⟩).db.products
      = [⟨1, "https://example.com/product", none⟩] ∧
    (⟨1, "https://example.com/product", none⟩ : Product)
      ≠ ⟨1, "https://example.com/product", some 90⟩ := by
  refine ⟨?_, ?_, ?_, ?_⟩
  · have e1 : (scrape_product_info "https://example.com/product"
        (jsonOnlyFetch "100.00")).price = format_price (parse_price "$100.00") := rfl
    rw [e1, parse_price_100, format_price_100,
      show stripDollarsCommas "$100.00" = "100.00" from by decide]
    exact pyFloat_100
  · unfold pyRound2
    rw [show ((100 : ℚ) * (9 / 10) * 100) = ((9000 : ℤ) : ℚ) by norm_num, rne_intCast]
    norm_num
  · exact check_price_products_stable _ _ _ _
  · intro h
    simp at h

/-- C3, amended: the 90%-of-first-price threshold derivation happens in
the tracking endpoint (`track_product`), not in the recheck cycle: the
cycle never modifies the products table; `track_product` derives
`round(price * 0.9, 2)` exactly when no (nonzero) threshold was provided
and the first scrape normalized to a nonzero price, stores it once at
creation, and rejects an already-tracked URL, so the automatic setting
happens at most once per target. -/
theorem threshold_derivation_spec :
    (∀ (url : String) (tp : Option ℚ) (db : DB) (env : CycleEnv),
      (check_price url tp db env).db.products = db.products) ∧
    (∀ p : ℚ, p ≠ 0 →
      derive_target none (some p) = some (pyRound2 (p * (9 / 10)))) ∧
    (∀ provided cp : Option ℚ, ratOptFalsy provided = false →
      derive_target provided cp = provided) ∧
    (∀ (db : DB) (url : String) (provided : Option ℚ) (info : ProductInfo) (newId : Nat),
      (∃ p ∈ db.products, p.url = url) →
      track_product db url provided info newId = none) ∧
    (∀ (db : DB) (url : String) (provided : Option ℚ) (info : ProductInfo) (newId : Nat)
       (res : DB × Continuation),
      track_product db url provided info newId = some res →
      res.1.products = db.products ++ [⟨newId, url, derive_target provided info.price_float⟩] ∧
      res.2 = ⟨url, derive_target provided info.price_float, 0⟩) := by
  refine ⟨check_price_products_stable, ?_, ?_, ?_, ?_⟩
  · intro p hp
    have hbe : (p == (0 : ℚ)) = false := beq_eq_false_iff_ne.mpr hp
    unfold derive_target
    rw [if_pos (by simp [ratOptFalsy, hbe])]
    rfl
  · intro provided cp h
    unfold derive_target
    rw [if_neg (by simp [h])]
  · intro db url provided info newId hex
    obtain ⟨p, hp, hurl⟩ := hex
    unfold track_product
    rw [if_pos (List.any_eq_true.mpr ⟨p, hp, by simp [hurl]⟩)]
  · intro db url provided info newId res h
    unfold track_product at h
    by_cases hc : db.products.any (fun q => q.url == url) = true
    · rw [if_pos hc] at h
      exact absurd h (by simp)
    · rw [if_neg hc] at h
      have h2 := Option.some.inj h
      rw [← h2]
      exact ⟨rfl, rfl⟩

theorem threshold_derivation_spec_witness :
    derive_target none (some (100 : ℚ)) = some (pyRound2 ((100 : ℚ) * (9 / 10))) :=
  threshold_derivation_spec.2.1 100 (by norm_num)

end WheelNDeal
